import Mathlib

/-!
Verification development for the Sedusa haptic story engine.

The Python sources are shallowly embedded here:

* `haptics/tokens.py`   — `TokenCompiler` (`compile_by_name`, `_dp_to_band`),
  modelled over a JSON-like dynamic value type `JVal`, since the motif bank
  is loaded from JSON and the compiler manipulates untyped dicts.  Operations
  that can raise in Python (attribute errors on non-dicts, arithmetic on
  non-numbers, division by zero) return `Except String`.
* `haptics/runner.py`   — `StoryRunner`: the act-timeline derivation, the
  contrast-seeking playlist selection, the lifecycle flags behind
  `stop`/`pause`/`resume`/`state_snapshot`, the `_band_to_window` mapping and
  the control-flow skeleton of `run` around the closing release sequence.
  Wall-clock `_should_stop` polls are abstracted as a boolean oracle indexed
  by poll count; the seeded `random.Random` instance is abstracted as an
  arbitrary deterministic implementation threaded through the selection loop.
* `device/handy.py`     — `HandyClient.set_slide_window` / `set_speed_hz`,
  with the PUT requests recorded as a command trace.

Numeric values are modelled as rationals; `int()` truncation and Python's
banker-style rounding are modelled explicitly.
-/

/-- JSON-like dynamic value, the payload of the motif bank and of compiled
events (`tokens.py` works on plain dicts loaded by `json.load`). -/
inductive JVal where
  | null
  | bool (b : Bool)
  | num (q : ℚ)
  | str (s : String)
  | arr (xs : List JVal)
  | obj (kvs : List (String × JVal))

/-- Entry list of a Python dict (insertion ordered, later bindings win). -/
abbrev Entries := List (String × JVal)

/-- Dict lookup. Later (rightmost) bindings shadow earlier ones, matching
dict-literal merges such as a trailing double-star spread. -/
def dget (kvs : Entries) (k : String) : Option JVal :=
  (kvs.reverse.find? (fun kv => kv.fst == k)).map Prod.snd

/-- Python `d.get(k)` (default `None`). -/
def pyGet (kvs : Entries) (k : String) : JVal :=
  (dget kvs k).getD .null

/-- Python `d.get(k, dflt)`. -/
def pyGetD (kvs : Entries) (k : String) (dflt : JVal) : JVal :=
  (dget kvs k).getD dflt

/-- Python truthiness of a JSON value. -/
def truthy : JVal → Bool
  | .null => false
  | .bool b => b
  | .num q => if q = 0 then false else true
  | .str s => if s = "" then false else true
  | .arr xs => !xs.isEmpty
  | .obj kvs => !kvs.isEmpty

/-- Coerce a value to a number the way Python arithmetic does (`bool` is an
int there); anything else raises a `TypeError`. -/
def asNum : JVal → Except String ℚ
  | .num q => .ok q
  | .bool b => .ok (if b then 1 else 0)
  | _ => .error "TypeError: unsupported operand type"

/-- Band of a plain rational depth percent: source `TokenCompiler._dp_to_band`
restricted to numbers (below 33 is A, below 66 is B, otherwise C). -/
def bandOfQ (q : ℚ) : String :=
  if q < 33 then "A" else if q < 66 then "B" else "C"

/-- Source `TokenCompiler._dp_to_band` on a dynamic value: the comparisons
`dp < 33` / `dp < 66` raise when `dp` is not a number. -/
def dp_to_band (dp : JVal) : Except String String := do
  let q ← asNum dp
  .ok (bandOfQ q)

/-- Motif library: `MotifLibrary.motifs_by_name` as an association list
(name, motif dict).  `MotifLibrary._load` only ever stores dict entries that
carry a `name` key, so values are `Entries`. -/
abbrev Lib := List (String × Entries)

/-- Source `MotifLibrary.get_pattern`. -/
def get_pattern (lib : Lib) (name : String) : Option Entries :=
  (lib.find? (fun kv => kv.fst == name)).map Prod.snd

/-- The silent fallback segment returned for absent or key-missing motifs. -/
def fallbackEvent : JVal :=
  .obj [("band", .str "B"), ("hz", .num 0), ("range_mm", .num 0),
        ("offset_s", .num 0), ("duration_s", .num 1)]

/-- Single-segment branch of `compile_by_name`: builds the event dict
(the double-star spread of the pattern dict and base props appended last). -/
def simpleEvent (pkvs base_props : Entries) : Except String JVal := do
  let band ← dp_to_band (pyGetD pkvs "dp" (.num 50))
  let spq ← asNum (pyGetD pkvs "sp" (.num 50))
  let dq ← asNum (pyGetD pkvs "duration_ms" (.num 5000))
  .ok (.obj ([("band", .str band), ("hz", .num (spq / 100 * 3)),
    ("range_mm", pyGetD pkvs "rng" (.num 20)), ("offset_s", .num 0),
    ("duration_s", .num (dq / 1000))] ++ pkvs ++ base_props))

/-- One iteration of the combo loop in `compile_by_name`: the event built for
the sub-segment at index `idx`.  `seg.get` raises when the sub-segment is not
a dict. -/
def comboEvent (pkvs base_props : Entries) (band_dur step : ℚ) (idx : ℕ)
    (seg : JVal) : Except String JVal :=
  match seg with
  | .obj skvs => do
      let band ← dp_to_band (pyGetD skvs "dp" (pyGetD pkvs "dp" (.num 50)))
      let spq ← asNum (pyGetD skvs "sp" (pyGetD pkvs "sp" (.num 50)))
      let dq ← asNum (pyGetD skvs "duration_ms" (.num (band_dur * 1000)))
      .ok (.obj ([("band", .str band), ("hz", .num (spq / 100 * 3)),
        ("range_mm", pyGetD skvs "rng" (pyGetD pkvs "rng" (.num 20))),
        ("offset_s", .num ((idx : ℚ) * step)),
        ("duration_s", .num (dq / 1000))] ++ skvs ++ base_props))
  | _ => .error "AttributeError: object has no attribute get"

/-- The `for idx, seg in enumerate(combo)` loop of `compile_by_name`. -/
def comboEvents (pkvs base_props : Entries) (band_dur step : ℚ) :
    ℕ → List JVal → Except String (List JVal)
  | _, [] => .ok []
  | idx, seg :: rest => do
      let e ← comboEvent pkvs base_props band_dur step idx seg
      let es ← comboEvents pkvs base_props band_dur step (idx + 1) rest
      .ok (e :: es)

/-- Python `len`/iteration over the combo value: lists iterate elements,
strings iterate one-character strings, dicts iterate their keys; anything
else raises. -/
def pyIterate : JVal → Except String (List JVal)
  | .arr xs => .ok xs
  | .str s => .ok (s.toList.map (fun c => .str (String.mk [c])))
  | .obj kvs => .ok (kvs.map (fun kv => .str kv.fst))
  | _ => .error "TypeError: object is not iterable"

/-- Source `TokenCompiler.compile_by_name` over the dynamic motif library.
The silent fallback is produced when the lookup is absent, the motif dict is
empty (falsy) or it lacks a `pattern` key; other malformed shapes raise, as
in Python. -/
def compile_by_name (lib : Lib) (name : String) (overlap : ℚ := 3 / 10) :
    Except String (List JVal) :=
  match get_pattern lib name with
  | none => .ok [fallbackEvent]
  | some motif =>
    if motif.isEmpty || (dget motif "pattern").isNone then .ok [fallbackEvent]
    else
      match pyGetD motif "tags" (.obj []) with
      | .obj tkvs =>
        let dominant := pyGet tkvs "dominant_band"
        let base_props : Entries :=
          if truthy dominant then [("dominant_band", dominant)] else []
        match pyGet motif "pattern" with
        | .obj pkvs =>
          let isCombo : Bool :=
            match pyGet pkvs "type" with | .str s => s == "combo" | _ => false
          let comboV := pyGet pkvs "combo"
          if !isCombo || !truthy comboV then
            (simpleEvent pkvs base_props).map (fun e => [e])
          else do
            let totalq ← asNum (pyGetD pkvs "duration_ms" (.num 5000))
            let total_d := totalq / 1000
            let comboList ← pyIterate comboV
            let n := comboList.length
            let denom : ℚ := (n : ℚ) - overlap * ((n : ℚ) - 1)
            if n > 1 ∧ denom = 0 then
              .error "ZeroDivisionError: float division by zero"
            else
              let band_dur := if n > 1 then total_d / denom else total_d
              let step := band_dur * (1 - overlap)
              comboEvents pkvs base_props band_dur step 0 comboList
        | _ => .error "AttributeError: object has no attribute get"
      | _ => .error "AttributeError: object has no attribute get"

/-- Lookup on a compiled event value (events are dicts). -/
def jget : JVal → String → Option JVal
  | .obj kvs, k => dget kvs k
  | _, _ => none

/-! ### StoryRunner: act timeline (`run`, timeline derivation) -/

/-- Python `int()` on a rational: truncation toward zero (the denominator of
a normalized rational is positive, and `Int.div` rounds toward zero). -/
def pyTrunc (q : ℚ) : ℤ :=
  Int.tdiv q.num (q.den : ℤ)

/-- The percentage tables of `StoryRunner.run`, selected by session length
in minutes (`length_min`). -/
def act_defs (length_min : ℕ) : List (String × ℚ) :=
  if length_min ≥ 60 then
    [("Trap", 10/100), ("Revelation", 10/100), ("Test", 20/100),
     ("Interrogation", 15/100), ("Worship", 15/100), ("Gaze", 10/100),
     ("Claiming", 15/100)]
  else if length_min ≥ 30 then
    [("Trap", 15/100), ("Revelation", 15/100), ("Test", 25/100),
     ("Interrogation", 15/100), ("Worship", 15/100), ("Gaze", 10/100)]
  else
    [("Trap", 15/100), ("Revelation", 20/100), ("Test", 40/100),
     ("Gaze", 20/100)]

/-- The act timeline built by `StoryRunner.run`: 90 percent of the session
is story time, each act gets its normalized share truncated by `int()` and
floored at 60 seconds, and is labelled with a `The ` prefixed name. -/
def act_timeline (length_min : ℕ) : List (String × ℤ) :=
  let total_story_s : ℚ := ((length_min : ℚ) * 60) * (9/10)
  let defs := act_defs length_min
  let total_pct := (defs.map Prod.snd).sum
  defs.map (fun np =>
    ("The " ++ np.fst, max 60 (pyTrunc (np.snd / total_pct * total_story_s))))

/-! ### StoryRunner: contrast-seeking playlist selection (`run`, inner loop) -/

/-- The `last_pattern_info` dict of the playlist loop.  `dp` and `rng` hold
raw dynamic values (a JSON `null` is Python `None`); `name` and `band` are
either `None` or strings. -/
structure LastInfo where
  name : Option String := none
  dp : JVal := .null
  rng : JVal := .null
  band : Option String := none

/-- Whether a dynamic value is Python `None`. -/
def isNull : JVal → Bool
  | .null => true
  | _ => false

/-- The if/elif/elif chain deciding whether one candidate is appended to
`candidate_patterns` (given its already computed `current_dp` and
`current_band`).  The depth-delta comparison can raise a `TypeError` on
non-numeric depths. -/
def candKeep (last : LastInfo) (n : String) (current_dp : JVal)
    (current_band : String) : Except String Bool :=
  let nameCond : Bool := match last.name with
    | some ln => n != ln
    | none => true
  if (match last.band with
      | some b => (b != "") && (current_band != b)
      | none => false) then
    .ok true
  else if isNull last.dp then .ok nameCond
  else do
    let a ← asNum current_dp
    let b ← asNum last.dp
    if |a - b| > 30 then .ok true else .ok nameCond

/-- The candidate-collection loop of `StoryRunner.run`: walks the eligible
names in order, silently skipping motifs that are absent, falsy or lack a
`pattern` key, and keeps every name passing the if/elif/elif chain. -/
def candidate_patterns (lib : Lib) (last : LastInfo) :
    List String → Except String (List String)
  | [] => .ok []
  | n :: rest =>
    match get_pattern lib n with
    | none => candidate_patterns lib last rest
    | some motif =>
      if motif.isEmpty || (dget motif "pattern").isNone then
        candidate_patterns lib last rest
      else
        match pyGet motif "pattern" with
        | .obj pkvs => do
            let current_dp := pyGetD pkvs "dp" (.num 50)
            let current_band ← dp_to_band current_dp
            let keep ← candKeep last n current_dp current_band
            let kept ← candidate_patterns lib last rest
            .ok (if keep then n :: kept else kept)
        | _ => .error "AttributeError: object has no attribute get"

/-- Abstract deterministic pseudo-random source standing for the seeded
`random.Random(self.seed)` instance: `randbelow` backs `rng.choice`,
`uniform` backs `rng.uniform`. -/
structure RngImpl (σ : Type) where
  randbelow : σ → ℕ → ℕ × σ
  uniform : σ → ℚ → ℚ → ℚ × σ

/-- `rng.choice(seq)`: an index below the length (any implementation value is
reduced mod the length), raising `IndexError` on an empty sequence. -/
def rchoice {σ : Type} (impl : RngImpl σ) (s : σ) (l : List String) :
    Except String (String × σ) :=
  if l.isEmpty then .error "IndexError: cannot choose from an empty sequence"
  else
    let ks := impl.randbelow s l.length
    .ok (l.getD (ks.fst % l.length) "", ks.snd)

/-- One pattern-name pick of the playlist loop: constrained by
`candidate_patterns` when a truthy previous name exists, with the source's
fallbacks (names other than the last when the pool is empty, the first
eligible name for a single-name universe), otherwise unconstrained. -/
def pick_next {σ : Type} (impl : RngImpl σ) (lib : Lib) (last : LastInfo)
    (s : σ) : Except String (String × σ) :=
  let names := lib.map Prod.fst
  match last.name with
  | some ln =>
    if ln != "" then do
      let cands ← candidate_patterns lib last names
      if !cands.isEmpty then rchoice impl s cands
      else if names.length > 1 then
        rchoice impl s (names.filter (fun p => p != ln))
      else
        match names with
        | n :: _ => .ok (n, s)
        | [] => .error "IndexError: list index out of range"
    else rchoice impl s names
  | none => rchoice impl s names

/-! ### StoryRunner: playlist build loop (`run`, while loop over one act) -/

/-- `e.get(k, dflt)` on an event value: raises when the event is not a dict
(never the case for compiled events). -/
def evGetD (e : JVal) (k : String) (dflt : JVal) : Except String JVal :=
  match e with
  | .obj kvs => .ok (pyGetD kvs k dflt)
  | _ => .error "AttributeError: object has no attribute get"

/-- `e.get('offset_s', 0) + e.get('duration_s', 0)` for one event. -/
def evSpan (e : JVal) : Except String ℚ := do
  let o ← asNum (← evGetD e "offset_s" (.num 0))
  let d ← asNum (← evGetD e "duration_s" (.num 0))
  .ok (o + d)

/-- `max(e.get('offset_s', 0) + e.get('duration_s', 0) for e in events)`:
Python `max` raises on an empty generator. -/
def pattern_span : List JVal → Except String ℚ
  | [] => .error "ValueError: max() arg is an empty sequence"
  | e :: rest => do
      let v ← evSpan e
      match rest with
      | [] => .ok v
      | _ => do
          let w ← pattern_span rest
          .ok (max v w)

/-- The update of `last_pattern_info` after a pick: defaults 50/20/B when the
motif is absent, falsy or lacks a `pattern` key, and otherwise the first
compiled event's depth/range with the parent pattern's values as defaults. -/
def updateLast (lib : Lib) (name : String) (events : List JVal) :
    Except String LastInfo :=
  match get_pattern lib name with
  | none => .ok ⟨some name, .num 50, .num 20, some "B"⟩
  | some motif =>
    if motif.isEmpty || (dget motif "pattern").isNone then
      .ok ⟨some name, .num 50, .num 20, some "B"⟩
    else
      match events with
      | [] => .error "IndexError: list index out of range"
      | first :: _ =>
        match pyGet motif "pattern" with
        | .obj pkvs => do
            let pattern_dp ← evGetD first "dp" (pyGetD pkvs "dp" (.num 50))
            let lrng ← evGetD first "range_mm" (pyGetD pkvs "rng" (.num 20))
            let b ← dp_to_band pattern_dp
            .ok ⟨some name, pattern_dp, lrng, some b⟩
        | _ => .error "AttributeError: object has no attribute get"

/-- `StoryRunner.PLAYLIST_OVERLAP`. -/
def PLAYLIST_OVERLAP : ℚ := 4 / 10

/-- State threaded through one act's playlist-building while loop: the rng
state, `last_pattern_info`, the pattern names picked so far, the running
`playlist_duration_s`, the index of the next `_should_stop` poll and whether
any events were appended to `act_playlist`. -/
structure BuildSt (σ : Type) where
  rng : σ
  last : LastInfo
  picks : List String
  dur : ℚ
  pollK : ℕ
  appended : Bool

/-- One iteration of the playlist while-loop body (after its guard): pick a
name, compile it, update `last_pattern_info`, and extend the playlist unless
the compiled span is at most 0.1 s. -/
def buildBody {σ : Type} (impl : RngImpl σ) (lib : Lib) (st : BuildSt σ) :
    Except String (BuildSt σ) := do
  let ns ← pick_next impl lib st.last st.rng
  let name := ns.fst
  let events ← compile_by_name lib name
  if events.isEmpty then
    .ok { st with rng := ns.snd, picks := st.picks ++ [name] }
  else do
    let last ← updateLast lib name events
    let span ← pattern_span events
    if span ≤ 1 / 10 then
      .ok { st with rng := ns.snd, last := last, picks := st.picks ++ [name] }
    else
      .ok { st with
              rng := ns.snd
              last := last
              picks := st.picks ++ [name]
              dur := st.dur + span * (1 - PLAYLIST_OVERLAP)
              appended := true }

/-- The playlist while loop, fuel bounded (the guard first checks the
accumulated duration, then — short-circuiting — polls `_should_stop`). -/
def buildLoop {σ : Type} (impl : RngImpl σ) (lib : Lib) (stop : ℕ → Bool)
    (act_duration : ℚ) : ℕ → BuildSt σ → Except String (BuildSt σ)
  | 0, st => .ok st
  | fuel + 1, st =>
    if st.dur < act_duration then
      if stop st.pollK then .ok { st with pollK := st.pollK + 1 }
      else
        match buildBody impl lib { st with pollK := st.pollK + 1 } with
        | .error e => .error e
        | .ok st' => buildLoop impl lib stop act_duration fuel st'
    else .ok st

/-- The act loop of `StoryRunner.run`, restricted to the data that the
pattern selection depends on: returns the sequence of pattern-name picks,
the final rng state and the final poll counter.  Narrative announcements and
`_play_events` playback use only the process-global `random`, never the
seeded rng, and are elided; the Gaze act consumes one `rng.uniform(4, 6)`
sample and breaks on its inner `_should_stop` poll as in the source. -/
def runActs {σ : Type} (impl : RngImpl σ) (lib : Lib) (stop : ℕ → Bool)
    (fuel : ℕ) : List (String × ℤ) → σ → ℕ → Except String (List String × σ × ℕ)
  | [], s, k => .ok ([], s, k)
  | (act_name, act_duration) :: rest, s, k =>
    if stop k then .ok ([], s, k + 1)
    else if act_name == "The Gaze" then
      match compile_by_name lib "snake_freeze" with
      | .error e => .error e
      | .ok _ =>
        if stop (k + 1) then .ok ([], s, k + 2)
        else
          let us := impl.uniform s 4 6
          match compile_by_name lib "snake_pass" with
          | .error e => .error e
          | .ok _ => runActs impl lib stop fuel rest us.snd (k + 2)
    else
      match buildLoop impl lib stop ((act_duration : ℚ)) fuel
          { rng := s, last := {}, picks := [], dur := 0, pollK := k + 1,
            appended := false } with
      | .error e => .error e
      | .ok st =>
        let k2 := if st.appended then st.pollK + 1 else st.pollK
        match runActs impl lib stop fuel rest st.rng k2 with
        | .error e => .error e
        | .ok res => .ok (st.picks ++ res.fst, res.snd.fst, res.snd.snd)

/-- The selection-relevant trace of one scheduler run: the act timeline is
derived from the session length, then the act loop is run from poll 0 with
the seeded rng state `s0`. -/
def run_selections {σ : Type} (impl : RngImpl σ) (lib : Lib)
    (length_min : ℕ) (stop : ℕ → Bool) (fuel : ℕ) (s0 : σ) :
    Except String (List String × σ × ℕ) :=
  runActs impl lib stop fuel (act_timeline length_min) s0 0

/-! ### StoryRunner: lifecycle flags and status snapshot -/

/-- Commands issued to the `HandyClient` by the runner's control methods. -/
inductive RCmd where
  | setSpeed (hz : ℚ)
  | stopMotion
  deriving DecidableEq

/-- The two threading flags of `StoryRunner`: `_stop_event` and `_pause`. -/
structure RState where
  stopEvent : Bool
  pauseFlag : Bool
  deriving DecidableEq

/-- The flag state right after `StoryRunner.__init__` (both events clear). -/
def initialRState : RState := ⟨false, false⟩

/-- Source `StoryRunner.stop`: sets `_stop_event`, then tries to command
speed zero and stop-motion with every exception swallowed (`fail` tells
whether the device raises; the trace holds the commands that got through). -/
def stop_run (fail : Bool) (s : RState) : RState × List RCmd :=
  ({ s with stopEvent := true },
   if fail then [] else [RCmd.setSpeed 0, RCmd.stopMotion])

/-- Source `StoryRunner.pause`: sets `_pause`, then commands stop-motion with
no exception handling — a device error propagates to the caller after the
flag is already set. -/
def pause_run (fail : Bool) (s : RState) : RState × Except String (List RCmd) :=
  ({ s with pauseFlag := true },
   if fail then .error "HandyAPIError: stop motion failed"
   else .ok [RCmd.stopMotion])

/-- Source `StoryRunner.resume`: clears `_pause`. -/
def resume_run (s : RState) : RState := { s with pauseFlag := false }

/-- The `state` field computed by `StoryRunner.state_snapshot`: paused wins
over everything, then running while the stop event is clear, else stopped. -/
def snapshot_state (s : RState) : String :=
  if s.pauseFlag then "paused"
  else if !s.stopEvent then "running" else "stopped"

/-- External control calls reaching the flags (device in simulate mode, where
`_put` never raises). -/
inductive ROp where
  | stop
  | pause
  | resume
  deriving DecidableEq

/-- Effect of one control call on the flags. -/
def applyOp (op : ROp) (s : RState) : RState :=
  match op with
  | .stop => (stop_run false s).fst
  | .pause => (pause_run false s).fst
  | .resume => resume_run s

/-- Effect of a sequence of control calls, first element applied first. -/
def applyOps (ops : List ROp) (s : RState) : RState :=
  ops.foldl (fun t op => applyOp op t) s

/-! ### StoryRunner: band-to-window mapping -/

/-- Source `StoryRunner._band_to_window` (band A and B are matched literally,
any other band falls to the deep-third center, as the source's final else). -/
def band_to_window (depth_min depth_max : ℚ) (band : String) (rng_mm : ℚ) :
    ℚ × ℚ :=
  let lo := depth_min
  let hi := depth_max
  let span := max 8 (hi - lo)
  let third := span / 3
  let center :=
    if band = "A" then lo + third * (1/2)
    else if band = "B" then lo + third * (3/2)
    else lo + third * (5/2)
  let half := max 4 (min rng_mm (third * (9/10))) / 2
  (max lo (center - half), min hi (center + half))

/-- Modelled from the claim's words (C9): the window whose span is literally
`depthMax - depthMin`, centered at `depthMin + span/3 * (0.5|1.5|2.5)` with
half-width `clamp(rangeMm, 4, span/3*0.9) / 2`, clipped to the depth range. -/
def band_to_window_claimed (depth_min depth_max : ℚ) (band : String)
    (rng_mm : ℚ) : ℚ × ℚ :=
  let span := depth_max - depth_min
  let third := span / 3
  let center :=
    if band = "A" then depth_min + third * (1/2)
    else if band = "B" then depth_min + third * (3/2)
    else depth_min + third * (5/2)
  let half := max 4 (min rng_mm (third * (9/10))) / 2
  (max depth_min (center - half), min depth_max (center + half))

/-- The claim's formula amended by the counterexample: the span the code uses
is floored at 8 mm before being cut into thirds. -/
def band_to_window_amended (depth_min depth_max : ℚ) (band : String)
    (rng_mm : ℚ) : ℚ × ℚ :=
  let span := max 8 (depth_max - depth_min)
  let third := span / 3
  let center :=
    if band = "A" then depth_min + third * (1/2)
    else if band = "B" then depth_min + third * (3/2)
    else depth_min + third * (5/2)
  let half := max 4 (min rng_mm (third * (9/10))) / 2
  (max depth_min (center - half), min depth_max (center + half))

/-! ### StoryRunner: control-flow skeleton of `run` around the release -/

/-- Observable actions of the `run` skeleton. -/
inductive RAct where
  | announce (key : String)
  | play (what : String)
  | hold (secs : ℕ)
  | stopMotion
  deriving DecidableEq

/-- The closing sequence after the act loop: release announcement, playback
of the compiled progressive-wave pattern, a 10 s hold, stop-motion, outro. -/
def releaseBlock : List RAct :=
  [.announce "STORY_RELEASE", .play "wave_train_progressive", .hold 10,
   .stopMotion, .announce "OUTRO"]

/-- The act for-loop of `run` at trace granularity: each act first polls
`_should_stop` (breaking the loop when it fires), then announces and plays
through its body.  `body` abstracts everything the act emits, and `polls`
how many further `_should_stop` polls its playback consumes.  Returns the
trace and the index of the next poll. -/
def runPhases (stop : ℕ → Bool) (body : String → List RAct)
    (polls : String → ℕ) : List (String × ℤ) → ℕ → List RAct × ℕ
  | [], k => ([], k)
  | (act_name, _) :: rest, k =>
    if stop k then ([], k + 1)
    else
      let tr := runPhases stop body polls rest (k + 1 + polls act_name)
      (body act_name ++ tr.fst, tr.snd)

/-- The whole of `run` at trace granularity: the act loop, then the final
`_should_stop` check — `return` when it fires, the release block had
otherwise. -/
def runStory (stop : ℕ → Bool) (body : String → List RAct)
    (polls : String → ℕ) (timeline : List (String × ℤ)) : List RAct :=
  let tr := runPhases stop body polls timeline 0
  tr.fst ++ (if stop tr.snd then [] else releaseBlock)

/-- Number of release announcements in a trace (the release block runs iff
its announcement appears, and it contains exactly one). -/
def countRelease (tr : List RAct) : ℕ :=
  tr.countP (fun a => a == RAct.announce "STORY_RELEASE")

/-! ### HandyClient (`device/handy.py`) -/

/-- Rounds to the nearest integer, ties to even — Python `round`. -/
def pyRound (q : ℚ) : ℤ :=
  let f := ⌊q⌋
  let r := q - (f : ℚ)
  if r < 1/2 then f
  else if r > 1/2 then f + 1
  else if 2 ∣ f then f else f + 1

/-- Python `round(x, 1)`: nearest tenth, ties to even. -/
def round1 (q : ℚ) : ℚ := (pyRound (q * 10) : ℚ) / 10

/-- PUT requests sent by `HandyClient._put`. -/
inductive HCmd where
  | slide (apiMin apiMax : ℤ)
  | velocity (v : ℤ)
  | mode (m : ℕ)
  | hampStart
  | hampStop
  deriving DecidableEq

/-- `HandyClient.FULL_TRAVEL_MM`. -/
def FULL_TRAVEL_MM : ℚ := 110

/-- The de-duplication state of a `HandyClient` plus its calibration factor
(constructor default 2.8). -/
structure HandyClient where
  speed_calibration_factor : ℚ := 14 / 5
  slide_window : Option (ℚ × ℚ) := none
  speed_hz : Option ℚ := none
  deriving DecidableEq

/-- Source `HandyClient.set_slide_window`: dedupe on the window rounded to
tenths, convert to inverted API percentages, force a 2-point gap, PUT. -/
def set_slide_window (c : HandyClient) (min_mm max_mm : ℚ) :
    HandyClient × List HCmd :=
  let win := (round1 min_mm, round1 max_mm)
  if c.slide_window = some win then (c, [])
  else
    let c' := { c with slide_window := some win }
    let min_pct := min_mm / FULL_TRAVEL_MM * 100
    let max_pct := max_mm / FULL_TRAVEL_MM * 100
    let api_min := max 0 (pyRound (100 - max_pct))
    let api_max := min 100 (pyRound (100 - min_pct))
    let api_max := if api_min ≥ api_max then min 100 (api_min + 2) else api_max
    (c', [HCmd.slide api_min api_max])

/-- Source `HandyClient.set_speed_hz`: dedupe on the exact Hz value first,
record the new speed, and only then bail out when no slide window has been
set yet — so the speed is remembered without any device traffic. -/
def set_speed_hz (c : HandyClient) (hz : ℚ) : HandyClient × List HCmd :=
  if c.speed_hz = some hz then (c, [])
  else
    let c' := { c with speed_hz := some hz }
    match c'.slide_window with
    | none => (c', [])
    | some w =>
      let window_mm := w.snd - w.fst
      let window_pct := window_mm / FULL_TRAVEL_MM * 100
      let raw_velocity := window_pct * hz
      let velocity := pyTrunc (raw_velocity / c'.speed_calibration_factor)
      (c', [HCmd.velocity (max 0 (min 100 velocity))])

/-! ### Well-formed motif shapes used to state the compiler claims -/

/-- A well-shaped combo sub-segment: each field, when present, is stored as a
JSON number under the source's key. -/
structure SubSeg where
  dp : Option ℚ := none
  sp : Option ℚ := none
  rng : Option ℚ := none
  duration_ms : Option ℚ := none

/-- The dict entries of a sub-segment. -/
def SubSeg.entries (s : SubSeg) : Entries :=
  (s.dp.map (fun q => ("dp", JVal.num q))).toList ++
  (s.sp.map (fun q => ("sp", JVal.num q))).toList ++
  (s.rng.map (fun q => ("rng", JVal.num q))).toList ++
  (s.duration_ms.map (fun q => ("duration_ms", JVal.num q))).toList

/-- A sub-segment as a dynamic dict value. -/
def SubSeg.toJVal (s : SubSeg) : JVal := .obj s.entries

/-- The `pattern` dict of a well-shaped combo motif: type combo, a list of
sub-segments, an explicit total duration and optional parent overrides. -/
def comboPattern (pdp psp prng : Option ℚ) (duration_ms : ℚ)
    (combov : JVal) : Entries :=
  [("type", .str "combo"), ("combo", combov),
   ("duration_ms", .num duration_ms)] ++
  (pdp.map (fun q => ("dp", JVal.num q))).toList ++
  (psp.map (fun q => ("sp", JVal.num q))).toList ++
  (prng.map (fun q => ("rng", JVal.num q))).toList

/-- A whole well-shaped combo motif dict (no `tags` key). -/
def comboMotif (nm : String) (pdp psp prng : Option ℚ) (duration_ms : ℚ)
    (segs : List SubSeg) : Entries :=
  [("name", .str nm),
   ("pattern", .obj (comboPattern pdp psp prng duration_ms
      (.arr (segs.map SubSeg.toJVal))))]

/-- A simple (non-combo) motif whose pattern only sets a depth percent. -/
def simpleMotif (nm : String) (dp : ℚ) : Entries :=
  [("name", .str nm), ("pattern", .obj [("dp", .num dp)])]

/-! ### Concrete instances used by counterexamples and witnesses -/

/-- Library holding the three-segment combo of the C1 instance:
`durationMs = 6000`, three empty sub-segments, no parent overrides. -/
def c1lib : Lib :=
  [("combo3", comboMotif "combo3" none none none 6000 [{}, {}, {}])]

/-- Library where pattern `x` has a JSON `null` under its `pattern` key: the
lookup succeeds and the key is present, so the compiler reaches
`p.get('type')` on `None` and raises. -/
def c4lib : Lib := [("x", [("name", .str "x"), ("pattern", JVal.null)])]

/-- Library for the contrast-selection counterexample: previous pick `a1`
(depth 10, band A), plus `a2` (depth 20, band A, delta 10) and `b1`
(depth 50, band B). -/
def c2lib : Lib :=
  [("a1", simpleMotif "a1" 10), ("a2", simpleMotif "a2" 20),
   ("b1", simpleMotif "b1" 50)]

/-- The `last_pattern_info` after picking `a1` from `c2lib`. -/
def c2last : LastInfo :=
  { name := some "a1", dp := .num 10, rng := .num 20, band := some "A" }

/-- A concrete deterministic rng implementation: `randbelow` always yields
index 0 and `uniform` its lower bound. -/
def implZero : RngImpl Unit :=
  { randbelow := fun s _ => (0, s), uniform := fun s a _ => (a, s) }

/-- Phase body for the run-skeleton instances: each act just plays itself. -/
def c7body (act_name : String) : List RAct := [.play act_name]

/-- Each act's playback consumes one further poll in the instances. -/
def c7polls (_ : String) : ℕ := 1

/-- A session that is never explicitly stopped. -/
def c7stopFlag (_ : ℕ) : Bool := false

/-- A wall-clock deadline that passes only after the four acts of a
10-minute session have consumed polls 0 to 7: the post-loop check is poll 8. -/
def c7deadline (n : ℕ) : Bool := decide (8 ≤ n)

/-- `_should_stop` for that session: explicit stop flag or deadline. -/
def c7stop (n : ℕ) : Bool := c7stopFlag n || c7deadline n

/-! ## Theorems -/

/-- Characterization of `int()` truncation for nonnegative results: it
agrees with the floor. -/
theorem pyTrunc_eq_of_le_of_lt (q : ℚ) (n : ℤ) (hn : 0 ≤ n)
    (h1 : (n : ℚ) ≤ q) (h2 : q < (n : ℚ) + 1) : pyTrunc q = n := by
  have h0 : (0 : ℚ) ≤ q := le_trans (by exact_mod_cast hn) h1
  have hfloor : pyTrunc q = ⌊q⌋ := by
    unfold pyTrunc
    rw [Rat.floor_def]
    exact Int.tdiv_eq_ediv (Rat.num_nonneg.mpr h0) (by positivity)
  rw [hfloor]
  rw [Int.floor_eq_iff]
  exact ⟨h1, by exact_mod_cast h2⟩

/-! ### C5 — act-timeline derivation -/

/-- C5: the act timeline selects the table by duration tier (7 acts for
sessions of 60 minutes and more, 6 for 30 to 59, 4 below 30), floors each
act at 60 seconds, and for a 10-minute session the four acts get
85/113/227/113 seconds — summing to 538, within one truncation per act
(4 seconds) of the 540-second story budget. -/
theorem act_timeline_correct :
    (∀ L, 60 ≤ L → (act_timeline L).length = 7) ∧
    (∀ L, 30 ≤ L → L < 60 → (act_timeline L).length = 6) ∧
    (∀ L, L < 30 → (act_timeline L).length = 4) ∧
    (∀ L d, d ∈ (act_timeline L).map Prod.snd → 60 ≤ d) ∧
    act_timeline 10 = [("The Trap", 85), ("The Revelation", 113),
      ("The Test", 227), ("The Gaze", 113)] ∧
    ((act_timeline 10).map Prod.snd).sum = 538 ∧
    540 - ((act_timeline 10).map Prod.snd).sum ≤ 4 := by
  have e10 : act_timeline 10 = [("The Trap", 85), ("The Revelation", 113),
      ("The Test", 227), ("The Gaze", 113)] := by
    have hdefs : act_defs 10 = [("Trap", 15/100), ("Revelation", 20/100),
        ("Test", 40/100), ("Gaze", 20/100)] := by
      norm_num [act_defs]
    simp only [act_timeline, hdefs, List.map_cons, List.map_nil, List.sum_cons,
      List.sum_nil]
    have t1 : pyTrunc ((15/100 : ℚ) / (15/100 + (20/100 + (40/100 + (20/100 + 0))))
        * (((10 : ℕ) : ℚ) * 60 * (9/10))) = 85 :=
      pyTrunc_eq_of_le_of_lt _ 85 (by norm_num) (by norm_num) (by norm_num)
    have t2 : pyTrunc ((20/100 : ℚ) / (15/100 + (20/100 + (40/100 + (20/100 + 0))))
        * (((10 : ℕ) : ℚ) * 60 * (9/10))) = 113 :=
      pyTrunc_eq_of_le_of_lt _ 113 (by norm_num) (by norm_num) (by norm_num)
    have t3 : pyTrunc ((40/100 : ℚ) / (15/100 + (20/100 + (40/100 + (20/100 + 0))))
        * (((10 : ℕ) : ℚ) * 60 * (9/10))) = 227 :=
      pyTrunc_eq_of_le_of_lt _ 227 (by norm_num) (by norm_num) (by norm_num)
    rw [t1, t2, t3]
    decide
  refine ⟨?_, ?_, ?_, ?_, e10, by rw [e10]; decide, by rw [e10]; decide⟩
  · intro L hL
    simp [act_timeline, act_defs, hL]
  · intro L h30 h60
    simp [act_timeline, act_defs, h30, Nat.not_le.mpr h60]
  · intro L h30
    have h60 : ¬ 60 ≤ L := by omega
    have h30' : ¬ 30 ≤ L := by omega
    simp [act_timeline, act_defs, h60, h30']
  · intro L d hd
    simp only [act_timeline, List.map_map, List.mem_map] at hd
    obtain ⟨np, _, rfl⟩ := hd
    exact le_max_left _ _

/-- C5 witness: the minimum-60 clause of `act_timeline_correct` applied to
the first act of a 10-minute session. -/
theorem act_timeline_correct_witness : (60 : ℤ) ≤ 85 := by
  have h := act_timeline_correct.2.2.2.1 10 85
  refine h ?_
  rw [act_timeline_correct.2.2.2.2.1]
  decide

/-! ### C9 — band-to-window mapping -/

/-- C9 counterexample: with a 4 mm depth range the code's window differs from
the claim's formula (the code floors the span at 8 mm), and for band C the
code's window does not even lie inside the depth range. -/
theorem band_to_window_counterexample :
    band_to_window 0 4 "A" 20 ≠ band_to_window_claimed 0 4 "A" 20 ∧
    (band_to_window 0 4 "C" 20).fst > 4 := by
  constructor
  · have h1 : band_to_window 0 4 "A" 20 = (0, 10/3) := by
      norm_num [band_to_window]
    have h2 : band_to_window_claimed 0 4 "A" 20 = (0, 8/3) := by
      norm_num [band_to_window_claimed]
    rw [h1, h2]
    intro h
    have := congrArg Prod.snd h
    norm_num at this
  · have h3 : band_to_window 0 4 "C" 20 = (14/3, 4) := by
      rw [band_to_window]
      rw [if_neg (by decide : ¬("C" : String) = "A")]
      rw [if_neg (by decide : ¬("C" : String) = "B")]
      norm_num
    rw [h3]
    norm_num

/-- C9 amended: the code's mapping matches the claim's center/half-width
formula once the span is floored at 8 mm, and each edge is clamped toward
the depth range on its own side (the lower edge never drops below
`depth_min`, the upper never exceeds `depth_max`; the pair itself can escape
the range on the other side, as the counterexample shows). -/
theorem band_to_window_amended_correct (depth_min depth_max rng_mm : ℚ)
    (band : String) (_hband : band = "A" ∨ band = "B" ∨ band = "C") :
    band_to_window depth_min depth_max band rng_mm =
      band_to_window_amended depth_min depth_max band rng_mm ∧
    depth_min ≤ (band_to_window depth_min depth_max band rng_mm).fst ∧
    (band_to_window depth_min depth_max band rng_mm).snd ≤ depth_max := by
  refine ⟨rfl, ?_, ?_⟩
  · exact le_max_left _ _
  · exact min_le_left _ _

/-- C9 witness: the amended window equation at a configuration-default depth
range. -/
theorem band_to_window_amended_witness :
    band_to_window 15 110 "A" 20 = band_to_window_amended 15 110 "A" 20 ∧
    (15 : ℚ) ≤ (band_to_window 15 110 "A" 20).fst ∧
    (band_to_window 15 110 "A" 20).snd ≤ 110 :=
  band_to_window_amended_correct 15 110 20 "A" (Or.inl rfl)

/-! ### C3 — stop is idempotent and terminal -/

/-- C3 counterexample: calling `pause()` after `stop()` makes the status
snapshot report `paused`, not `stopped` — the snapshot checks the pause flag
first. -/
theorem stop_then_pause_not_stopped :
    snapshot_state (applyOps [ROp.stop, ROp.pause] initialRState) ≠ "stopped" ∧
    snapshot_state (applyOps [ROp.stop, ROp.pause] initialRState) = "paused" := by
  constructor
  · decide
  · decide

/-- C3 amended: after `stop()` the stop event stays set under any further
sequence of `stop`/`pause`/`resume` calls (stop is irrevocable, and a second
`stop()` keeps the snapshot at `stopped`), but the snapshot reports
`stopped` only while the pause flag is clear; a trailing un-resumed
`pause()` makes it report `paused` instead. -/
theorem stop_terminal_amended (s0 : RState) (ops : List ROp) :
    (applyOps ops (applyOp ROp.stop s0)).stopEvent = true ∧
    ((applyOps ops (applyOp ROp.stop s0)).pauseFlag = false →
      snapshot_state (applyOps ops (applyOp ROp.stop s0)) = "stopped") := by
  have key : ∀ (l : List ROp) (s : RState), s.stopEvent = true →
      (applyOps l s).stopEvent = true := by
    intro l
    induction l with
    | nil => intro s hs; exact hs
    | cons op rest ih =>
      intro s hs
      have : (applyOp op s).stopEvent = true := by
        cases op <;> simp [applyOp, stop_run, pause_run, resume_run, hs]
      exact ih _ this
  have h1 : (applyOps ops (applyOp ROp.stop s0)).stopEvent = true :=
    key ops _ (by simp [applyOp, stop_run])
  refine ⟨h1, fun hp => ?_⟩
  simp [snapshot_state, h1, hp]

/-- C3 witness: pausing and resuming after `stop()` leaves the snapshot at
`stopped`. -/
theorem stop_terminal_amended_witness :
    snapshot_state (applyOps [ROp.pause, ROp.resume]
      (applyOp ROp.stop initialRState)) = "stopped" := by
  have h := stop_terminal_amended initialRState [ROp.pause, ROp.resume]
  exact h.2 (by decide)

/-! ### C6 — pause and actuator failures -/

/-- C6 counterexample: when the actuator's stop-motion command raises,
`pause()` propagates the exception to its caller (there is no handler),
with the pause flag already set. -/
theorem pause_propagates_counterexample :
    (pause_run true initialRState).snd =
      Except.error "HandyAPIError: stop motion failed" ∧
    (pause_run true initialRState).fst.pauseFlag = true := by
  constructor
  · rfl
  · rfl

/-- C6 amended: `pause()` sets the pause flag and immediately commands
stop-motion; when the device raises, the exception propagates to the caller
(the flag staying set), unlike `stop()`, which swallows device errors and
always completes. -/
theorem pause_amended (s : RState) :
    (pause_run false s).fst.pauseFlag = true ∧
    (pause_run false s).snd = Except.ok [RCmd.stopMotion] ∧
    (pause_run true s).fst.pauseFlag = true ∧
    (pause_run true s).snd = Except.error "HandyAPIError: stop motion failed" ∧
    (∀ fail : Bool, (stop_run fail s).fst.stopEvent = true) := by
  refine ⟨rfl, rfl, rfl, rfl, fun fail => rfl⟩

/-! ### C10 — speed recorded but not sent without a slide window -/

/-- C10: before any slide window is set, `set_speed_hz h` sends nothing yet
records `h` as the last speed; therefore a later `set_speed_hz h` with the
same value, even after a slide window has been set, again sends no speed
command. -/
theorem set_speed_hz_before_window (c : HandyClient) (h a b : ℚ)
    (hw : c.slide_window = none) :
    (set_speed_hz c h).snd = [] ∧
    (set_speed_hz c h).fst.speed_hz = some h ∧
    (set_speed_hz (set_slide_window (set_speed_hz c h).fst a b).fst h).snd
      = [] := by
  have hwin_speed : ∀ (d : HandyClient) (x y : ℚ),
      (set_slide_window d x y).fst.speed_hz = d.speed_hz := by
    intro d x y
    unfold set_slide_window
    dsimp only
    split
    · rfl
    · rfl
  have first : (set_speed_hz c h).snd = [] ∧
      (set_speed_hz c h).fst.speed_hz = some h := by
    unfold set_speed_hz
    by_cases hc : c.speed_hz = some h
    · simp [hc]
    · simp [hc, hw]
  have dedupe : ∀ (d : HandyClient) (hz : ℚ), d.speed_hz = some hz →
      (set_speed_hz d hz).snd = [] := by
    intro d hz hd
    unfold set_speed_hz
    simp [hd]
  have hsp : (set_slide_window (set_speed_hz c h).fst a b).fst.speed_hz
      = some h := by
    rw [hwin_speed, first.2]
  exact ⟨first.1, first.2, dedupe _ _ hsp⟩

/-- C10 witness: a fresh simulated client, 2 Hz, then a 20–60 mm window. -/
theorem set_speed_hz_before_window_witness :
    (set_speed_hz {} 2).snd = [] ∧
    (set_speed_hz {} 2).fst.speed_hz = some 2 ∧
    (set_speed_hz (set_slide_window (set_speed_hz {} 2).fst 20 60).fst 2).snd
      = [] :=
  set_speed_hz_before_window {} 2 20 60 rfl

/-! ### C7 — the closing release sequence -/

/-- C7 counterexample: a session that is never explicitly stopped
(`c7stopFlag` is constantly false) and whose four acts all run to completion
still skips the whole release sequence when the wall-clock deadline has
passed by the post-loop `_should_stop` check. -/
theorem release_skipped_counterexample :
    runStory c7stop c7body c7polls (act_timeline 10) =
      [.play "The Trap", .play "The Revelation", .play "The Test",
       .play "The Gaze"] ∧
    countRelease (runStory c7stop c7body c7polls (act_timeline 10)) = 0 := by
  have e10 := act_timeline_correct.2.2.2.2.1
  rw [e10]
  constructor
  · rfl
  · rfl

/-- C7 amended: the release sequence (release announcement, progressive-wave
playback, 10 s hold, stop-motion, outro) runs exactly once when the post-loop
`_should_stop` poll — explicit stop flag or wall-clock deadline — is false,
and zero times when it is true; completing all phases without an explicit
stop does not suffice, since a passed deadline also suppresses it. -/
theorem release_once_iff (stop : ℕ → Bool) (body : String → List RAct)
    (polls : String → ℕ) (timeline : List (String × ℤ))
    (hbody : ∀ a, countRelease (body a) = 0) :
    countRelease (runStory stop body polls timeline) =
      if stop (runPhases stop body polls timeline 0).snd then 0 else 1 := by
  have hphases : ∀ (tl : List (String × ℤ)) (k : ℕ),
      countRelease (runPhases stop body polls tl k).fst = 0 := by
    intro tl
    induction tl with
    | nil => intro k; rfl
    | cons hd rest ih =>
      intro k
      by_cases hk : stop k
      · simp [runPhases, hk, countRelease]
      · simp only [runPhases, hk]
        simp only [Bool.false_eq_true, if_false, countRelease,
          List.countP_append]
        have h1 := hbody hd.fst
        have h2 := ih (k + 1 + polls hd.fst)
        simp only [countRelease] at h1 h2
        omega
  unfold runStory
  simp only [countRelease, List.countP_append]
  have h0 := hphases timeline 0
  simp only [countRelease] at h0
  by_cases hfin : stop (runPhases stop body polls timeline 0).snd
  · simp [hfin, h0]
  · simp [hfin, h0, releaseBlock, List.countP_cons]

/-- C7 witness: with a never-firing stop oracle the release sequence runs
exactly once. -/
theorem release_once_iff_witness :
    countRelease (runStory (fun _ => false) c7body c7polls
      (act_timeline 10)) = 1 := by
  have h := release_once_iff (fun _ => false) c7body c7polls (act_timeline 10)
    (fun a => rfl)
  simpa using h

/-! ### C4 — compiler fallback and exceptions -/

/-- C4 counterexample: the motif bank entry with a JSON `null` under its
`pattern` key is malformed, the lookup succeeds and the key is present, so
`compile_by_name` reaches `p.get('type')` on `None` and raises an
`AttributeError` instead of returning the silent fallback segment. -/
theorem compile_raises_counterexample :
    compile_by_name c4lib "x" =
      Except.error "AttributeError: object has no attribute get" := by
  rfl

/-- C4 amended: the single silent fallback segment is returned exactly for
the benign failures — name absent from the library, motif dict empty
(falsy), or motif lacking a `pattern` key; a present-but-malformed `pattern`
value (e.g. `null`) instead raises, so compile is not exception-free. -/
theorem compile_fallback (lib : Lib) (name : String) (overlap : ℚ)
    (habsent : get_pattern lib name = none ∨
      ∃ motif, get_pattern lib name = some motif ∧
        (motif = [] ∨ dget motif "pattern" = none)) :
    compile_by_name lib name overlap = Except.ok [fallbackEvent] := by
  rcases habsent with h | ⟨motif, hm, hcase⟩
  · simp [compile_by_name, h]
  · rcases hcase with rfl | hnone
    · simp [compile_by_name, hm]
    · simp [compile_by_name, hm, hnone]

/-- C4 witness: the fallback clause at an empty library. -/
theorem compile_fallback_witness :
    compile_by_name [] "missing" (3 / 10) = Except.ok [fallbackEvent] :=
  compile_fallback [] "missing" (3 / 10) (Or.inl rfl)

/-! ### C2 — contrast-seeking selection -/

/-- Monadic bind on `Except` applied to a success, as a rewrite rule. -/
theorem bind_ok_exc {α β : Type} (a : α) (f : α → Except String β) :
    (Except.ok a >>= f) = f a := rfl

/-- Monadic bind on `Except` applied to a failure, as a rewrite rule. -/
theorem bind_err_exc {α β : Type} (e : String) (f : α → Except String β) :
    ((Except.error e : Except String α) >>= f) = Except.error e := rfl

/-- The truthiness test on the remembered name, as a rewrite rule. -/
theorem nameCond_iff (last : LastInfo) (n : String) :
    ((match last.name with
      | some ln => n != ln
      | none => true) = true) ↔ (∀ ln, last.name = some ln → n ≠ ln) := by
  cases last.name <;> simp

/-- Reduction of `_dp_to_band` on a value whose numeric coercion succeeds. -/
theorem dp_to_band_ok (v : JVal) (q : ℚ) (h : asNum v = Except.ok q) :
    dp_to_band v = Except.ok (bandOfQ q) := by
  unfold dp_to_band
  rw [h]
  rfl

/-- The if/elif/elif chain of the candidate filter accepts exactly the flat
union of the three contrast conditions: different band, depth delta above
30, or merely a different name. -/
theorem candKeep_spec (last : LastInfo) (n : String) (cdp : JVal)
    (cband : String) (q : ℚ) (hc : asNum cdp = Except.ok q)
    (hlast : last.dp = JVal.null ∨ ∃ q0, asNum last.dp = Except.ok q0) :
    ∃ kb, candKeep last n cdp cband = Except.ok kb ∧
      (kb = true ↔
        ((∃ b, last.band = some b ∧ b ≠ "" ∧ cband ≠ b) ∨
         (∃ q0, last.dp ≠ JVal.null ∧ asNum last.dp = Except.ok q0 ∧
            |q - q0| > 30) ∨
         (∀ ln, last.name = some ln → n ≠ ln))) := by
  by_cases hbc : (match last.band with
      | some b => (b != "") && (cband != b)
      | none => false) = true
  · refine ⟨true, ?_, ?_⟩
    · rw [candKeep, if_pos hbc]
    · simp only [true_iff]
      left
      cases hlb : last.band with
      | none => rw [hlb] at hbc; simp at hbc
      | some b =>
        rw [hlb] at hbc
        simp only [Bool.and_eq_true, bne_iff_ne, ne_eq] at hbc
        exact ⟨b, rfl, hbc.1, hbc.2⟩
  · have hnoband : ¬ ∃ b, last.band = some b ∧ b ≠ "" ∧ cband ≠ b := by
      rintro ⟨b, hb, hb1, hb2⟩
      rw [hb] at hbc
      simp only [Bool.and_eq_true, bne_iff_ne, ne_eq] at hbc
      exact hbc ⟨hb1, hb2⟩
    by_cases hn0 : last.dp = JVal.null
    · have hisnull : isNull last.dp = true := by rw [hn0]; rfl
      refine ⟨(match last.name with
        | some ln => n != ln
        | none => true), ?_, ?_⟩
      · rw [candKeep, if_neg hbc, if_pos hisnull]
      · rw [nameCond_iff]
        constructor
        · intro h; exact Or.inr (Or.inr h)
        · rintro (h | h | h)
          · exact absurd h hnoband
          · exact absurd hn0 h.choose_spec.1
          · exact h
    · obtain ⟨q0, hq0⟩ := hlast.resolve_left hn0
      have hisnull : isNull last.dp = false := by
        cases hld : last.dp with
        | null => exact absurd hld hn0
        | _ => rfl
      by_cases habs : |q - q0| > 30
      · refine ⟨true, ?_, ?_⟩
        · rw [candKeep, if_neg hbc, if_neg (by rw [hisnull]; simp)]
          rw [hc, bind_ok_exc, hq0, bind_ok_exc, if_pos habs]
        · simp only [true_iff]
          exact Or.inr (Or.inl ⟨q0, hn0, hq0, habs⟩)
      · refine ⟨(match last.name with
          | some ln => n != ln
          | none => true), ?_, ?_⟩
        · rw [candKeep, if_neg hbc, if_neg (by rw [hisnull]; simp)]
          rw [hc, bind_ok_exc, hq0, bind_ok_exc, if_neg habs]
        · rw [nameCond_iff]
          constructor
          · intro h; exact Or.inr (Or.inr h)
          · rintro (h | h | h)
            · exact absurd h hnoband
            · obtain ⟨q0', _, hq0', habs'⟩ := h
              rw [hq0] at hq0'
              cases hq0'
              exact absurd habs' habs
            · exact h

/-- Reduction of `asNum` on a number, as a rewrite rule. -/
theorem asNum_num (q : ℚ) : asNum (JVal.num q) = Except.ok q := rfl

/-- The candidate-collection loop computes, in order, exactly the names
whose motif is present and well shaped and which satisfy the flat union of
the three contrast conditions. -/
theorem candidate_patterns_spec (lib : Lib) (last : LastInfo)
    (hwf : ∀ n motif pv, get_pattern lib n = some motif →
      dget motif "pattern" = some pv →
      ∃ pkvs q, pv = JVal.obj pkvs ∧
        asNum (pyGetD pkvs "dp" (.num 50)) = Except.ok q)
    (hlast : last.dp = JVal.null ∨ ∃ q0, asNum last.dp = Except.ok q0) :
    ∀ names : List String, ∃ l,
      candidate_patterns lib last names = Except.ok l ∧
      ∀ n, n ∈ l ↔ ∃ motif pkvs q,
        n ∈ names ∧ get_pattern lib n = some motif ∧ motif ≠ [] ∧
        dget motif "pattern" = some (JVal.obj pkvs) ∧
        asNum (pyGetD pkvs "dp" (.num 50)) = Except.ok q ∧
        ((∃ b, last.band = some b ∧ b ≠ "" ∧ bandOfQ q ≠ b) ∨
         (∃ q0, last.dp ≠ JVal.null ∧ asNum last.dp = Except.ok q0 ∧
            |q - q0| > 30) ∨
         (∀ ln, last.name = some ln → n ≠ ln)) := by
  intro names
  induction names with
  | nil => exact ⟨[], rfl, by simp⟩
  | cons n rest ih =>
    obtain ⟨l, hl, hiff⟩ := ih
    cases hg : get_pattern lib n with
    | none =>
      refine ⟨l, by simp only [candidate_patterns, hg, hl], fun n' => ?_⟩
      rw [hiff n']
      constructor
      · rintro ⟨m, pk, q, hmem, hrest⟩
        exact ⟨m, pk, q, List.mem_cons_of_mem _ hmem, hrest⟩
      · rintro ⟨m, pk, q, hmem, hg', hrest⟩
        rcases List.mem_cons.mp hmem with rfl | hmem'
        · rw [hg] at hg'; cases hg'
        · exact ⟨m, pk, q, hmem', hg', hrest⟩
    | some motif =>
      by_cases hskip : (motif.isEmpty || (dget motif "pattern").isNone) = true
      · refine ⟨l, ?_, fun n' => ?_⟩
        · simp only [candidate_patterns, hg]
          rw [if_pos hskip, hl]
        · rw [hiff n']
          constructor
          · rintro ⟨m, pk, q, hmem, hrest⟩
            exact ⟨m, pk, q, List.mem_cons_of_mem _ hmem, hrest⟩
          · rintro ⟨m, pk, q, hmem, hg', hne, hdg, hrest⟩
            rcases List.mem_cons.mp hmem with rfl | hmem'
            · rw [hg] at hg'
              cases hg'
              rcases Bool.or_eq_true_iff.mp hskip with he | he
              · exact absurd (List.isEmpty_iff.mp he) hne
              · rw [hdg] at he; cases he
            · exact ⟨m, pk, q, hmem', hg', hne, hdg, hrest⟩
      · have hne : motif ≠ [] := by
          intro h
          exact hskip (by rw [h]; rfl)
        have hsome : (dget motif "pattern").isSome = true := by
          rcases ho : dget motif "pattern" with _ | pv
          · exact absurd (by rw [Bool.or_eq_true_iff]; right; rw [ho]; rfl)
              hskip
          · rfl
        obtain ⟨pv, hpv⟩ := Option.isSome_iff_exists.mp hsome
        obtain ⟨pkvs, q, rfl, hq⟩ := hwf n motif pv hg hpv
        have hpyget : pyGet motif "pattern" = JVal.obj pkvs := by
          rw [pyGet, hpv]; rfl
        obtain ⟨kb, hkb, hkbiff⟩ :=
          candKeep_spec last n (pyGetD pkvs "dp" (.num 50)) (bandOfQ q) q hq
            hlast
        have hred : candidate_patterns lib last (n :: rest) =
            Except.ok (if kb then n :: l else l) := by
          simp only [candidate_patterns, hg]
          rw [if_neg hskip, hpyget]
          dsimp only
          rw [dp_to_band_ok _ _ hq, bind_ok_exc, hkb, bind_ok_exc, hl,
            bind_ok_exc]
        cases hkbv : kb with
        | true =>
          rw [hkbv] at hred
          refine ⟨n :: l, by rw [hred]; rfl, fun n' => ?_⟩
          constructor
          · intro hmem
            rcases List.mem_cons.mp hmem with rfl | hmem'
            · exact ⟨motif, pkvs, q, List.mem_cons_self _ _, hg, hne, hpv, hq,
                hkbiff.mp hkbv⟩
            · obtain ⟨m, pk, qq, hmem2, hrest⟩ := (hiff n').mp hmem'
              exact ⟨m, pk, qq, List.mem_cons_of_mem _ hmem2, hrest⟩
          · rintro ⟨m, pk, qq, hmem, hg', hne', hdg, hq', hdisj⟩
            rcases List.mem_cons.mp hmem with rfl | hmem'
            · exact List.mem_cons_self _ _
            · exact List.mem_cons_of_mem _
                ((hiff n').mpr ⟨m, pk, qq, hmem', hg', hne', hdg, hq', hdisj⟩)
        | false =>
          rw [hkbv] at hred
          refine ⟨l, by rw [hred]; rfl, fun n' => ?_⟩
          constructor
          · intro hmem
            obtain ⟨m, pk, qq, hmem2, hrest⟩ := (hiff n').mp hmem
            exact ⟨m, pk, qq, List.mem_cons_of_mem _ hmem2, hrest⟩
          · rintro ⟨m, pk, qq, hmem, hg', hne', hdg, hq', hdisj⟩
            rcases List.mem_cons.mp hmem with rfl | hmem'
            · rw [hg] at hg'
              cases hg'
              rw [hpv] at hdg
              cases hdg
              rw [hq] at hq'
              cases hq'
              rw [hkbiff.mpr hdisj] at hkbv
              cases hkbv
            · exact (hiff n').mpr ⟨m, pk, qq, hmem', hg', hne', hdg, hq', hdisj⟩

/-- C2 amended: the selection pool is a single flat tier — every pattern
whose motif is well shaped and which is in a different band, OR has a depth
delta above 30, OR merely has a different name than the previous pick, all
together — and the draw is `rng.choice` over that one pool, so a same-band
low-delta (different-name) pattern can be drawn even while different-band
candidates exist. -/
theorem contrast_flat_union (lib : Lib) (last : LastInfo)
    (hwf : ∀ n motif pv, get_pattern lib n = some motif →
      dget motif "pattern" = some pv →
      ∃ pkvs q, pv = JVal.obj pkvs ∧
        asNum (pyGetD pkvs "dp" (.num 50)) = Except.ok q)
    (hlast : last.dp = JVal.null ∨ ∃ q0, asNum last.dp = Except.ok q0) :
    ∃ l, candidate_patterns lib last (lib.map Prod.fst) = Except.ok l ∧
      (∀ n, n ∈ l ↔ ∃ motif pkvs q,
        n ∈ lib.map Prod.fst ∧ get_pattern lib n = some motif ∧ motif ≠ [] ∧
        dget motif "pattern" = some (JVal.obj pkvs) ∧
        asNum (pyGetD pkvs "dp" (.num 50)) = Except.ok q ∧
        ((∃ b, last.band = some b ∧ b ≠ "" ∧ bandOfQ q ≠ b) ∨
         (∃ q0, last.dp ≠ JVal.null ∧ asNum last.dp = Except.ok q0 ∧
            |q - q0| > 30) ∨
         (∀ ln, last.name = some ln → n ≠ ln))) ∧
      (∀ (σ : Type) (impl : RngImpl σ) (s : σ) (ln : String),
        last.name = some ln → ln ≠ "" → l ≠ [] →
        pick_next impl lib last s = rchoice impl s l) := by
  obtain ⟨l, hl, hiff⟩ :=
    candidate_patterns_spec lib last hwf hlast (lib.map Prod.fst)
  refine ⟨l, hl, hiff, ?_⟩
  intro σ impl s ln hln hln' hlne
  unfold pick_next
  rw [hln]
  dsimp only
  rw [if_pos (by simpa using hln')]
  rw [hl, bind_ok_exc]
  rw [if_pos (by simpa using hlne)]

/-- C2 counterexample: with previous pick `a1` (band A, depth 10) the pool
is `[a2, b1]` — `a2` shares band A and differs in depth by only 10, `b1` is
in band B — and the draw returns `a2` although the different-band candidate
`b1` exists, refuting "drawn exclusively from different-band or large-delta
candidates whenever at least one such candidate exists". -/
theorem contrast_counterexample :
    candidate_patterns c2lib c2last (c2lib.map Prod.fst) =
      Except.ok ["a2", "b1"] ∧
    pick_next implZero c2lib c2last () = Except.ok ("a2", ()) ∧
    dp_to_band (.num 20) = Except.ok "A" ∧
    c2last.band = some "A" ∧
    |(20 : ℚ) - 10| ≤ 30 ∧
    dp_to_band (.num 50) = Except.ok "B" := by
  have hbA10 : dp_to_band (JVal.num 10) = Except.ok "A" := by
    rw [dp_to_band_ok (JVal.num 10) 10 (asNum_num 10)]
    unfold bandOfQ
    rw [if_pos (by norm_num)]
  have hbA20 : dp_to_band (JVal.num 20) = Except.ok "A" := by
    rw [dp_to_band_ok (JVal.num 20) 20 (asNum_num 20)]
    unfold bandOfQ
    rw [if_pos (by norm_num)]
  have hbB50 : dp_to_band (JVal.num 50) = Except.ok "B" := by
    rw [dp_to_band_ok (JVal.num 50) 50 (asNum_num 50)]
    unfold bandOfQ
    rw [if_neg (by norm_num), if_pos (by norm_num)]
  have hlast10 : asNum c2last.dp = Except.ok 10 := asNum_num 10
  have hk1 : candKeep c2last "a1" (JVal.num 10) "A" = Except.ok false := by
    obtain ⟨kb, hkb, hkbiff⟩ :=
      candKeep_spec c2last "a1" (JVal.num 10) "A" 10 (asNum_num 10)
        (Or.inr ⟨10, hlast10⟩)
    have : kb = false := by
      cases hv : kb with
      | false => rfl
      | true =>
        rcases hkbiff.mp hv with ⟨b, hb, _, hb2⟩ | ⟨q0, _, hq0, habs⟩ | h
        · have hba : (some "A" : Option String) = some b := by rw [← hb]; rfl
          cases hba
          exact absurd rfl hb2
        · have h10 : (Except.ok (10 : ℚ) : Except String ℚ) = Except.ok q0 := by
            rw [← hq0, hlast10]
          cases h10
          norm_num at habs
        · exact absurd rfl (h "a1" rfl)
    rw [this] at hkb
    exact hkb
  have hk2 : candKeep c2last "a2" (JVal.num 20) "A" = Except.ok true := by
    obtain ⟨kb, hkb, hkbiff⟩ :=
      candKeep_spec c2last "a2" (JVal.num 20) "A" 20 (asNum_num 20)
        (Or.inr ⟨10, hlast10⟩)
    have : kb = true := hkbiff.mpr (Or.inr (Or.inr (by
      intro ln hln
      have hna : (some "a1" : Option String) = some ln := by rw [← hln]; rfl
      cases hna
      decide)))
    rw [this] at hkb
    exact hkb
  have hk3 : candKeep c2last "b1" (JVal.num 50) "B" = Except.ok true := by
    obtain ⟨kb, hkb, hkbiff⟩ :=
      candKeep_spec c2last "b1" (JVal.num 50) "B" 50 (asNum_num 50)
        (Or.inr ⟨10, hlast10⟩)
    have : kb = true := hkbiff.mpr (Or.inl ⟨"A", rfl, by decide, by decide⟩)
    rw [this] at hkb
    exact hkb
  have h3 : candidate_patterns c2lib c2last ["b1"] = Except.ok ["b1"] := by
    have e : candidate_patterns c2lib c2last ["b1"] =
        (dp_to_band (JVal.num 50) >>= fun current_band =>
          candKeep c2last "b1" (JVal.num 50) current_band >>= fun keep =>
          candidate_patterns c2lib c2last [] >>= fun kept =>
          Except.ok (if keep then "b1" :: kept else kept)) := rfl
    rw [e, hbB50, bind_ok_exc, hk3, bind_ok_exc]
    rfl
  have h2 : candidate_patterns c2lib c2last ["a2", "b1"] =
      Except.ok ["a2", "b1"] := by
    have e : candidate_patterns c2lib c2last ["a2", "b1"] =
        (dp_to_band (JVal.num 20) >>= fun current_band =>
          candKeep c2last "a2" (JVal.num 20) current_band >>= fun keep =>
          candidate_patterns c2lib c2last ["b1"] >>= fun kept =>
          Except.ok (if keep then "a2" :: kept else kept)) := rfl
    rw [e, hbA20, bind_ok_exc, hk2, bind_ok_exc, h3, bind_ok_exc]
    rfl
  have h1 : candidate_patterns c2lib c2last ["a1", "a2", "b1"] =
      Except.ok ["a2", "b1"] := by
    have e : candidate_patterns c2lib c2last ["a1", "a2", "b1"] =
        (dp_to_band (JVal.num 10) >>= fun current_band =>
          candKeep c2last "a1" (JVal.num 10) current_band >>= fun keep =>
          candidate_patterns c2lib c2last ["a2", "b1"] >>= fun kept =>
          Except.ok (if keep then "a1" :: kept else kept)) := rfl
    rw [e, hbA10, bind_ok_exc, hk1, bind_ok_exc, h2, bind_ok_exc]
    rfl
  have hnames : c2lib.map Prod.fst = ["a1", "a2", "b1"] := rfl
  refine ⟨by rw [hnames]; exact h1, ?_, hbA20, rfl, by norm_num, hbB50⟩
  have e : pick_next implZero c2lib c2last () =
      (candidate_patterns c2lib c2last ["a1", "a2", "b1"] >>= fun cands =>
        if !cands.isEmpty then rchoice implZero () cands
        else if (["a1", "a2", "b1"] : List String).length > 1 then
          rchoice implZero () (["a1", "a2", "b1"].filter (fun p => p != "a1"))
        else Except.ok ("a1", ())) := rfl
  rw [e, h1, bind_ok_exc]
  rfl

/-- C2 witness: the flat-union characterization applied to the empty
library. -/
theorem contrast_flat_union_witness :
    ∃ l, candidate_patterns ([] : Lib)
      { name := none, dp := JVal.null, rng := JVal.null, band := none }
      (([] : Lib).map Prod.fst) = Except.ok l := by
  obtain ⟨l, hl, _⟩ := contrast_flat_union []
    { name := none, dp := JVal.null, rng := JVal.null, band := none }
    (by intro n motif pv hg; simp [get_pattern] at hg)
    (Or.inl rfl)
  exact ⟨l, hl⟩

/-! ### C1 — combo overlap schedule -/

/-- `find?` distributes over append, preferring the left list. -/
theorem find?_app {α : Type} (p : α → Bool) (l1 l2 : List α) :
    (l1 ++ l2).find? p =
      match l1.find? p with
      | some v => some v
      | none => l2.find? p := by
  induction l1 with
  | nil => simp
  | cons a l ih =>
    by_cases h : p a
    · simp [List.find?, h]
    · simp only [List.cons_append, List.find?, h]
      exact ih

/-- Dict lookup on an appended entry list: the right (later) entries win. -/
theorem dget_append (l1 l2 : Entries) (k : String) :
    dget (l1 ++ l2) k =
      match dget l2 k with
      | some v => some v
      | none => dget l1 k := by
  unfold dget
  rw [List.reverse_append, find?_app]
  cases h : (l2.reverse.find? fun kv => kv.fst == k) <;> simp [h]

/-- All the key lookups on a well-shaped sub-segment's entries. -/
theorem subseg_lookups (s : SubSeg) :
    dget s.entries "dp" = s.dp.map JVal.num ∧
    dget s.entries "sp" = s.sp.map JVal.num ∧
    dget s.entries "rng" = s.rng.map JVal.num ∧
    dget s.entries "duration_ms" = s.duration_ms.map JVal.num ∧
    dget s.entries "offset_s" = none ∧
    dget s.entries "duration_s" = none := by
  rcases s with ⟨d, sp, r, m⟩
  cases d <;> cases sp <;> cases r <;> cases m <;>
    exact ⟨rfl, rfl, rfl, rfl, rfl, rfl⟩

/-- All the key lookups on a well-shaped combo pattern dict. -/
theorem comboPattern_lookups (pdp psp prng : Option ℚ) (T : ℚ) (cv : JVal) :
    pyGet (comboPattern pdp psp prng T cv) "type" = JVal.str "combo" ∧
    pyGet (comboPattern pdp psp prng T cv) "combo" = cv ∧
    pyGetD (comboPattern pdp psp prng T cv) "duration_ms" (.num 5000)
      = JVal.num T ∧
    pyGetD (comboPattern pdp psp prng T cv) "dp" (.num 50)
      = JVal.num (pdp.getD 50) ∧
    pyGetD (comboPattern pdp psp prng T cv) "sp" (.num 50)
      = JVal.num (psp.getD 50) := by
  cases pdp <;> cases psp <;> cases prng <;>
    exact ⟨rfl, rfl, rfl, rfl, rfl⟩

/-- One combo-loop iteration on a well-shaped sub-segment succeeds and
produces the event dict with the computed band, speed, offset and duration
(an explicit per-segment duration taking precedence). -/
theorem comboEvent_subseg (pkvs : Entries) (bd st : ℚ) (i : ℕ) (s : SubSeg)
    (pdpv pspv : ℚ)
    (hdp : pyGetD pkvs "dp" (.num 50) = JVal.num pdpv)
    (hsp : pyGetD pkvs "sp" (.num 50) = JVal.num pspv) :
    comboEvent pkvs [] bd st i s.toJVal = Except.ok (JVal.obj (
      [("band", .str (bandOfQ (s.dp.getD pdpv))),
       ("hz", .num ((s.sp.getD pspv) / 100 * 3)),
       ("range_mm", pyGetD s.entries "rng" (pyGetD pkvs "rng" (.num 20))),
       ("offset_s", .num ((i : ℚ) * st)),
       ("duration_s", .num ((s.duration_ms.getD (bd * 1000)) / 1000))]
      ++ s.entries ++ [])) := by
  obtain ⟨h1, h2, _, h4, _, _⟩ := subseg_lookups s
  have e1 : pyGetD s.entries "dp" (pyGetD pkvs "dp" (.num 50))
      = JVal.num (s.dp.getD pdpv) := by
    rw [pyGetD, h1, hdp]
    cases s.dp <;> rfl
  have e2 : pyGetD s.entries "sp" (pyGetD pkvs "sp" (.num 50))
      = JVal.num (s.sp.getD pspv) := by
    rw [pyGetD, h2, hsp]
    cases s.sp <;> rfl
  have e4 : pyGetD s.entries "duration_ms" (.num (bd * 1000))
      = JVal.num (s.duration_ms.getD (bd * 1000)) := by
    rw [pyGetD, h4]
    cases s.duration_ms <;> rfl
  unfold comboEvent SubSeg.toJVal
  dsimp only
  rw [e1, e2, e4]
  rw [dp_to_band_ok (JVal.num (s.dp.getD pdpv)) (s.dp.getD pdpv)
    (asNum_num _)]
  simp only [asNum_num, bind_ok_exc]

/-- The two scheduling lookups on a compiled combo event. -/
theorem comboEvent_jgets (pkvs : Entries) (bd st : ℚ) (i : ℕ) (s : SubSeg)
    (pdpv pspv : ℚ)
    (hdp : pyGetD pkvs "dp" (.num 50) = JVal.num pdpv)
    (hsp : pyGetD pkvs "sp" (.num 50) = JVal.num pspv) :
    ∃ ev, comboEvent pkvs [] bd st i s.toJVal = Except.ok ev ∧
      jget ev "offset_s" = some (.num ((i : ℚ) * st)) ∧
      jget ev "duration_s" =
        some (.num ((s.duration_ms.getD (bd * 1000)) / 1000)) := by
  obtain ⟨_, _, _, _, h5, h6⟩ := subseg_lookups s
  refine ⟨_, comboEvent_subseg pkvs bd st i s pdpv pspv hdp hsp, ?_, ?_⟩
  · show dget _ "offset_s" = _
    rw [List.append_nil, dget_append, h5]
    rfl
  · show dget _ "duration_s" = _
    rw [List.append_nil, dget_append, h6]
    rfl

/-- The combo loop over a list of well-shaped sub-segments succeeds, yields
one event per sub-segment, and the event at position `i` is scheduled at
offset `(i0 + i) * step` with duration `duration_ms/1000` defaulting to the
computed per-segment duration. -/
theorem comboEvents_subsegs (pkvs : Entries) (bd st : ℚ) (pdpv pspv : ℚ)
    (hdp : pyGetD pkvs "dp" (.num 50) = JVal.num pdpv)
    (hsp : pyGetD pkvs "sp" (.num 50) = JVal.num pspv) :
    ∀ (segs : List SubSeg) (i0 : ℕ), ∃ evs,
      comboEvents pkvs [] bd st i0 (segs.map SubSeg.toJVal) = Except.ok evs ∧
      evs.length = segs.length ∧
      ∀ i (hi : i < evs.length) (hi' : i < segs.length),
        jget (evs.get ⟨i, hi⟩) "offset_s"
          = some (.num (((i0 + i : ℕ) : ℚ) * st)) ∧
        jget (evs.get ⟨i, hi⟩) "duration_s" =
          some (.num (((segs.get ⟨i, hi'⟩).duration_ms.getD (bd * 1000))
            / 1000)) := by
  intro segs
  induction segs with
  | nil =>
    intro i0
    exact ⟨[], rfl, rfl, fun i hi => absurd hi (by simp)⟩
  | cons s rest ih =>
    intro i0
    obtain ⟨ev, hev, hoff, hdur⟩ :=
      comboEvent_jgets pkvs bd st i0 s pdpv pspv hdp hsp
    obtain ⟨evs, hevs, hlen, hprops⟩ := ih (i0 + 1)
    refine ⟨ev :: evs, ?_, by simp [hlen], ?_⟩
    · simp only [List.map_cons, comboEvents]
      rw [hev, bind_ok_exc, hevs, bind_ok_exc]
    · intro i hi hi'
      cases i with
      | zero =>
        refine ⟨?_, ?_⟩
        · show jget ev "offset_s" = _
          rw [hoff]
          norm_num
        · show jget ev "duration_s" = _
          rw [hdur]
          rfl
      | succ j =>
        have hj : j < evs.length := by
          simp at hi
          omega
        have hj' : j < rest.length := by
          simp at hi'
          omega
        obtain ⟨ho, hd⟩ := hprops j hj hj'
        refine ⟨?_, ?_⟩
        · show jget (evs.get ⟨j, hj⟩) "offset_s" = _
          rw [ho]
          have : i0 + 1 + j = i0 + (j + 1) := by omega
          rw [this]
        · show jget (evs.get ⟨j, hj⟩) "duration_s" = _
          rw [hd]
          rfl

/-- `compile_by_name` on a well-shaped combo motif with more than one
sub-segment reduces to the combo loop with `band_dur = T/(N - o*(N-1))` and
`step = band_dur*(1 - o)`. -/
theorem compile_comboMotif (lib : Lib) (nm : String) (pdp psp prng : Option ℚ)
    (T : ℚ) (segs : List SubSeg) (o : ℚ)
    (hlook : get_pattern lib nm = some (comboMotif nm pdp psp prng T segs))
    (hN : 1 < segs.length)
    (hden : ((segs.length : ℚ) - o * ((segs.length : ℚ) - 1)) ≠ 0) :
    compile_by_name lib nm o =
      comboEvents (comboPattern pdp psp prng T
          (.arr (segs.map SubSeg.toJVal))) []
        (T / 1000 / ((segs.length : ℚ) - o * ((segs.length : ℚ) - 1)))
        (T / 1000 / ((segs.length : ℚ) - o * ((segs.length : ℚ) - 1))
          * (1 - o))
        0 (segs.map SubSeg.toJVal) := by
  obtain ⟨ht, hc, hdm, _, _⟩ :=
    comboPattern_lookups pdp psp prng T (.arr (segs.map SubSeg.toJVal))
  have hA : (comboMotif nm pdp psp prng T segs).isEmpty = false := rfl
  have hB : dget (comboMotif nm pdp psp prng T segs) "pattern" =
      some (.obj (comboPattern pdp psp prng T
        (.arr (segs.map SubSeg.toJVal)))) := rfl
  have hC : pyGetD (comboMotif nm pdp psp prng T segs) "tags" (.obj [])
      = JVal.obj [] := rfl
  have hD : pyGet (comboMotif nm pdp psp prng T segs) "pattern" =
      JVal.obj (comboPattern pdp psp prng T
        (.arr (segs.map SubSeg.toJVal))) := rfl
  have hnonempty : (segs.map SubSeg.toJVal).isEmpty = false := by
    cases segs with
    | nil => simp at hN
    | cons a l => rfl
  have htru : truthy (JVal.arr (List.map SubSeg.toJVal segs)) = true := by
    rw [show truthy (JVal.arr (List.map SubSeg.toJVal segs)) =
      !(List.map SubSeg.toJVal segs).isEmpty from rfl, hnonempty]
    rfl
  unfold compile_by_name
  rw [hlook]
  dsimp only
  rw [hA, hB, hC]
  dsimp only
  rw [hD]
  dsimp only
  rw [ht, hc]
  dsimp only
  rw [show (some (JVal.obj (comboPattern pdp psp prng T
    (JVal.arr (List.map SubSeg.toJVal segs))))).isNone = false from rfl]
  rw [if_neg (by decide : ¬(((false || false) : Bool) = true))]
  rw [htru]
  rw [if_neg (by decide :
    ¬(((!("combo" == "combo") || !(true : Bool)) : Bool) = true))]
  rw [show (if truthy (pyGet ([] : Entries) "dominant_band") = true then
      [("dominant_band", pyGet ([] : Entries) "dominant_band")]
      else ([] : Entries)) = [] from rfl]
  rw [hdm]
  rw [asNum_num, bind_ok_exc]
  rw [show pyIterate (JVal.arr (segs.map SubSeg.toJVal)) =
    Except.ok (segs.map SubSeg.toJVal) from rfl, bind_ok_exc]
  rw [List.length_map]
  rw [if_neg (fun h => hden h.2)]
  rw [if_pos hN]

/-- C1: for every well-shaped combo motif with N > 1 sub-segments, total
duration `T = durationMs/1000` and overlap `o` (with nonzero denominator,
which holds at the default 0.3), compile succeeds with one event per
sub-segment; the i-th event is scheduled at offset `i * d * (1-o)` with
duration `d = T/(N - o*(N-1))`, an explicit per-segment `durationMs` taking
precedence over `d`. -/
theorem combo_schedule (lib : Lib) (nm : String) (pdp psp prng : Option ℚ)
    (T : ℚ) (segs : List SubSeg) (o : ℚ)
    (hlook : get_pattern lib nm = some (comboMotif nm pdp psp prng T segs))
    (hN : 1 < segs.length)
    (hden : ((segs.length : ℚ) - o * ((segs.length : ℚ) - 1)) ≠ 0) :
    ∃ evs, compile_by_name lib nm o = Except.ok evs ∧
      evs.length = segs.length ∧
      ∀ i (hi : i < evs.length) (hi' : i < segs.length),
        jget (evs.get ⟨i, hi⟩) "offset_s" =
          some (.num ((i : ℚ) *
            (T / 1000 / ((segs.length : ℚ) - o * ((segs.length : ℚ) - 1))
              * (1 - o)))) ∧
        jget (evs.get ⟨i, hi⟩) "duration_s" =
          some (.num (((segs.get ⟨i, hi'⟩).duration_ms.getD
            (T / 1000 / ((segs.length : ℚ) - o * ((segs.length : ℚ) - 1))
              * 1000)) / 1000)) := by
  obtain ⟨_, _, _, hdp, hsp⟩ :=
    comboPattern_lookups pdp psp prng T (.arr (segs.map SubSeg.toJVal))
  obtain ⟨evs, hevs, hlen, hprops⟩ :=
    comboEvents_subsegs
      (comboPattern pdp psp prng T (.arr (segs.map SubSeg.toJVal)))
      (T / 1000 / ((segs.length : ℚ) - o * ((segs.length : ℚ) - 1)))
      (T / 1000 / ((segs.length : ℚ) - o * ((segs.length : ℚ) - 1)) * (1 - o))
      (pdp.getD 50) (psp.getD 50) hdp hsp segs 0
  refine ⟨evs, ?_, hlen, ?_⟩
  · rw [compile_comboMotif lib nm pdp psp prng T segs o hlook hN hden, hevs]
  · intro i hi hi'
    obtain ⟨ho, hd⟩ := hprops i hi hi'
    refine ⟨?_, hd⟩
    rw [ho]
    norm_num

/-- C1 witness: the three-segment combo with `durationMs = 6000` at the
default overlap 0.3 — three events, offsets `i * 1.75` (0, 1.75, 3.5) and
durations 2.5 s. -/
theorem combo_schedule_witness :
    ∃ evs, compile_by_name c1lib "combo3" (3/10) = Except.ok evs ∧
      evs.length = 3 ∧
      ∀ i (hi : i < evs.length),
        jget (evs.get ⟨i, hi⟩) "offset_s" = some (.num ((i : ℚ) * (7/4))) ∧
        jget (evs.get ⟨i, hi⟩) "duration_s" = some (.num (5/2)) := by
  obtain ⟨evs, h1, h2, h3⟩ := combo_schedule c1lib "combo3" none none none
    6000 [{}, {}, {}] (3/10) rfl (by norm_num) (by norm_num)
  have hlen3 : evs.length = 3 := by rw [h2]; rfl
  refine ⟨evs, h1, hlen3, ?_⟩
  intro i hi
  have hi' : i < ([{}, {}, {}] : List SubSeg).length := by
    rw [← h2]
    exact hi
  obtain ⟨ho, hd⟩ := h3 i hi hi'
  constructor
  · rw [ho]
    have harith : (6000 : ℚ) / 1000 /
        ((([{}, {}, {}] : List SubSeg).length : ℚ)
          - 3/10 * ((([{}, {}, {}] : List SubSeg).length : ℚ) - 1))
        * (1 - 3/10) = 7/4 := by
      norm_num
    rw [harith]
  · rw [hd]
    have hi3 : i < 3 := hlen3 ▸ hi
    interval_cases i <;>
    · show some (JVal.num ((Option.getD none _) / 1000)) = _
      have harith2 : ((6000 : ℚ) / 1000 /
          ((([{}, {}, {}] : List SubSeg).length : ℚ)
            - 3/10 * ((([{}, {}, {}] : List SubSeg).length : ℚ) - 1))
          * 1000) / 1000 = 5/2 := by
        norm_num
      rw [Option.getD_none, harith2]

/-! ### C8 — seeded determinism of the scheduler -/

/-- The playlist while loop never consults anything but its arguments: with
a never-firing stop oracle it equals the run with the constantly-false
oracle. -/
theorem buildLoop_stop_false {σ : Type} (impl : RngImpl σ) (lib : Lib)
    (stop : ℕ → Bool) (h : ∀ n, stop n = false) (act_duration : ℚ) :
    ∀ (fuel : ℕ) (st : BuildSt σ),
      buildLoop impl lib stop act_duration fuel st =
      buildLoop impl lib (fun _ => false) act_duration fuel st := by
  intro fuel
  induction fuel with
  | zero => intro st; rfl
  | succ n ih =>
    intro st
    by_cases hd : st.dur < act_duration
    · simp only [buildLoop, h, if_pos hd, Bool.false_eq_true, if_false]
      cases hb : buildBody impl lib { st with pollK := st.pollK + 1 } with
      | error e => simp only [hb]
      | ok st' =>
        simp only [hb]
        exact ih st'
    · simp only [buildLoop, if_neg hd]

/-- The act loop with a never-firing stop oracle equals the run with the
constantly-false oracle. -/
theorem runActs_stop_false {σ : Type} (impl : RngImpl σ) (lib : Lib)
    (stop : ℕ → Bool) (h : ∀ n, stop n = false) (fuel : ℕ) :
    ∀ (timeline : List (String × ℤ)) (s : σ) (k : ℕ),
      runActs impl lib stop fuel timeline s k =
      runActs impl lib (fun _ => false) fuel timeline s k := by
  intro timeline
  induction timeline with
  | nil => intro s k; rfl
  | cons act rest ih =>
    intro s k
    obtain ⟨act_name, act_duration⟩ := act
    simp only [runActs, h, Bool.false_eq_true, if_false]
    by_cases hg : (act_name == "The Gaze") = true
    · rw [if_pos hg, if_pos hg]
      cases hc : compile_by_name lib "snake_freeze" with
      | error e => simp only [hc]
      | ok evs =>
        simp only [hc, h, Bool.false_eq_true, if_false]
        cases hp : compile_by_name lib "snake_pass" with
        | error e => simp only [hp]
        | ok evs' =>
          simp only [hp]
          exact ih _ _
    · rw [if_neg hg, if_neg hg]
      rw [buildLoop_stop_false impl lib stop h]
      cases hb : buildLoop impl lib (fun _ => false) (act_duration : ℚ) fuel
          { rng := s, last := {}, picks := [], dur := 0, pollK := k + 1,
            appended := false } with
      | error e => simp only [hb]
      | ok st =>
        simp only [hb]
        rw [ih st.rng (if st.appended then st.pollK + 1 else st.pollK)]

/-- C8: two runs of the scheduler with the same seed (same deterministic
rng implementation and initial state), the same pattern universe and the
same fuel, neither stopped early, make the identical sequence of
pattern-name selections; the phase durations, `act_timeline length_min`,
are a function of the session length alone and are identical as well. -/
theorem run_selections_deterministic {σ : Type} (impl : RngImpl σ)
    (lib : Lib) (length_min : ℕ) (fuel : ℕ) (s0 : σ)
    (stop1 stop2 : ℕ → Bool)
    (h1 : ∀ n, stop1 n = false) (h2 : ∀ n, stop2 n = false) :
    run_selections impl lib length_min stop1 fuel s0 =
    run_selections impl lib length_min stop2 fuel s0 := by
  unfold run_selections
  rw [runActs_stop_false impl lib stop1 h1 fuel (act_timeline length_min)
    s0 0]
  rw [runActs_stop_false impl lib stop2 h2 fuel (act_timeline length_min)
    s0 0]

/-- C8 witness: two syntactically different never-firing oracles agree. -/
theorem run_selections_deterministic_witness :
    run_selections implZero ([] : Lib) 10 (fun _ => false) 0 () =
    run_selections implZero ([] : Lib) 10 (fun n => decide (n < 0)) 0 () :=
  run_selections_deterministic implZero [] 10 0 () (fun _ => false)
    (fun n => decide (n < 0)) (fun n => rfl) (fun n => by simp)
